/-
Verification of the process-lifecycle supervisor in `src/index.js`
(class `NLSQLMCPServer`) of nlsql-mcp-server-npm.

The supervisor is shallowly embedded: each JavaScript method becomes a
Lean function from an explicit state (and a `World` describing the
environment the process interacts with: the dependency probe's outcome,
the filesystem, the pid the OS assigns) to a new state together with a
trace of externally visible effects (spawns, signals, `process.exit`
calls, logged errors).  All definitions are computable so that concrete
runs evaluate by `decide` / `rfl`.
-/
import Mathlib

set_option autoImplicit false

namespace NLSQL

/-! ## Strings: the `output.includes(...)` test used by the probe -/

/-- `isPrefixList pat l` : does `l` start with `pat`? (char-by-char). -/
def isPrefixList : List Char → List Char → Bool
  | [], _ => true
  | _ :: _, [] => false
  | a :: as, b :: bs => a == b && isPrefixList as bs

/-- `containsList pat l` : does `pat` occur as a contiguous run of `l`?
This is the semantics of JavaScript `String.prototype.includes`. -/
def containsList (pat : List Char) : List Char → Bool
  | [] => pat.isEmpty
  | b :: bs => isPrefixList pat (b :: bs) || containsList pat bs

/-- JavaScript `s.includes(pat)`. -/
def strIncludes (s pat : String) : Bool :=
  containsList pat.toList s.toList

/-! ## Data model

`SupervisorOptions` mirrors `this.options` built in the constructor of
`NLSQLMCPServer`; `ChildProcess` is the owned handle (`this.process`),
carrying the `pid` and the `killed` flag that Node sets when `.kill()`
is invoked on the handle. -/

structure SupervisorOptions where
  pythonExecutable : String
  serverPath : String
  cwd : String
  env : List (String × String)
  debug : Bool
deriving DecidableEq, Repr

/-- A live child-process handle: Node's `ChildProcess` restricted to the
fields `src/index.js` reads (`pid`, `killed`). -/
structure ChildProcess where
  pid : Nat
  killed : Bool
deriving DecidableEq, Repr

/-- The mutable state of one `NLSQLMCPServer` instance:
`this.options` and `this.process` (which starts out `null`). -/
structure ServerState where
  options : SupervisorOptions
  process : Option ChildProcess
deriving DecidableEq, Repr

/-- `path.join(__dirname, 'python-src')` — `getPackageRoot`. -/
def getPackageRoot (dirname : String) : String :=
  dirname ++ "/python-src"

/-- `path.join(getPackageRoot(), 'nlsql_mcp_server', 'server.py')` —
`getDefaultServerPath`. -/
def getDefaultServerPath (dirname : String) : String :=
  getPackageRoot dirname ++ "/nlsql_mcp_server/server.py"

/-- The constructor `new NLSQLMCPServer(options)` with every option left
at its default, instantiated at an abstract `__dirname`:
`this.process = null`. -/
def initServer (dirname : String) (envIn : List (String × String)) : ServerState :=
  { options :=
      { pythonExecutable := "python3"
        serverPath := getDefaultServerPath dirname
        cwd := getPackageRoot dirname
        env := envIn
        debug := false }
    process := none }

/-- A convenient concrete initial state for witnesses. -/
def s0 : ServerState := initServer "/pkg" []

/-! ## The environment (`World`)

Everything the supervisor code observes from outside: the dependency
probe's fate (spawn error, exit code, captured stdout/stderr), which
paths `fs.existsSync` reports as present, and the pid the OS will hand
to the next `spawn`. -/

structure World where
  /-- `some msg` when spawning the probe itself fails (the probe
  process's `error` event fires with `err.message = msg`). -/
  probeSpawnErr : Option String
  /-- Exit code delivered to the probe's `close` handler. -/
  probeExit : Int
  /-- Captured stdout of the probe (`output`). -/
  probeOut : String
  /-- Captured stderr of the probe (`error`). -/
  probeErr : String
  /-- `fs.existsSync`. -/
  fsExists : String → Bool
  /-- Pid assigned by the OS to the next successfully spawned child. -/
  nextPid : Nat

/-! ## DependencyProbe: `checkPythonDependencies` -/

/-- The sentinel token the inline probe script prints on success. -/
def sentinel : String := "DEPENDENCIES_OK"

/-- Outcome of the promise returned by `checkPythonDependencies`:
`ok` for `resolve(true)`, `failed msg` for `reject(new Error(msg))`. -/
inductive CheckOutcome where
  | ok
  | failed (msg : String)
deriving DecidableEq, Repr

/-- `checkPythonDependencies` from `src/index.js`:
the probe's stdio is fully piped; on the probe's `close`,
`code === 0 && output.includes('DEPENDENCIES_OK')` resolves, anything
else rejects with `Python dependencies check failed: ${error || output}`
(JavaScript `||`: the empty string is falsy); a spawn-level `error`
event rejects with `Failed to run Python: ${err.message}`. -/
def checkPythonDependencies (w : World) : CheckOutcome :=
  match w.probeSpawnErr with
  | some m => .failed ("Failed to run Python: " ++ m)
  | none =>
    if w.probeExit = 0 ∧ strIncludes w.probeOut sentinel then
      .ok
    else
      .failed ("Python dependencies check failed: "
        ++ (if w.probeErr = "" then w.probeOut else w.probeErr))

/-! ## ProcessSupervisor: `start`, `stop`, the event handlers -/

/-- How one entry of the `stdio` array is wired at spawn time. -/
inductive StdioMode where
  | inherit
  | pipe
deriving DecidableEq, Repr

/-- The arguments `start()` passes to `spawn` for the supervised child. -/
structure SpawnRequest where
  cmd : String
  args : List String
  cwd : String
  stdio : List StdioMode
  env : List (String × String)
deriving DecidableEq, Repr

/-- Externally visible effects of running a piece of the supervisor. -/
inductive Effect where
  /-- The dependency check resolved (control passed the `await`). -/
  | depCheckPassed
  /-- `fs.existsSync(this.options.serverPath)` was consulted, with the
  answer it returned. -/
  | entryPointChecked (present : Bool)
  /-- `spawn(...)` was called for the supervised child. -/
  | spawned (req : SpawnRequest) (pid : Nat)
  /-- `handle.kill(sig)` was called. -/
  | signalSent (pid : Nat) (sig : String)
  /-- `process.exit(code)` was called on the supervisor's own process. -/
  | exitProcess (code : Int)
  /-- `console.error(...)` was called with this diagnostic. -/
  | errorLogged (msg : String)
deriving DecidableEq, Repr

/-- The two distinct failure sites inside `start()`'s `try` block:
a rejection propagated out of `await this.checkPythonDependencies()`
(carrying the rejection's message), or the explicit
`throw new Error('Python server file not found at: …')` after
`fs.existsSync` returns false (carrying the offending path). -/
inductive StartError where
  | dependencyCheckFailed (msg : String)
  | entryPointMissing (path : String)
deriving DecidableEq, Repr

/-- The value `start()`'s control flow ends with: either the child was
spawned (with these arguments), or the `catch` block ran on this error. -/
inductive StartResult where
  | started (req : SpawnRequest) (pid : Nat)
  | failed (e : StartError)
deriving DecidableEq, Repr

/-- The error message thrown when the server file is missing. -/
def entryPointMissingMsg (path : String) : String :=
  "Python server file not found at: " ++ path

/-- `start()` from `src/index.js`, up to the point where it returns
control (handlers registered / `catch` executed):
1. `await this.checkPythonDependencies()` — a rejection jumps to the
   `catch`, which logs the error and calls `process.exit(1)`;
2. `fs.existsSync(this.options.serverPath)` — `false` throws
   `Python server file not found at: …`, landing in the same `catch`;
3. `spawn(python, ['-m', 'nlsql_mcp_server.server'], { cwd,
   stdio: ['inherit','inherit','inherit'], env })`, stored into
   `this.process` with `killed = false`. -/
def start (w : World) (s : ServerState) : ServerState × StartResult × List Effect :=
  match checkPythonDependencies w with
  | .failed msg =>
      (s, .failed (.dependencyCheckFailed msg),
        [.errorLogged ("Error starting server: " ++ msg), .exitProcess 1])
  | .ok =>
    if w.fsExists s.options.serverPath then
      let req : SpawnRequest :=
        { cmd := s.options.pythonExecutable
          args := ["-m", "nlsql_mcp_server.server"]
          cwd := s.options.cwd
          stdio := [.inherit, .inherit, .inherit]
          env := s.options.env }
      ({ s with process := some { pid := w.nextPid, killed := false } },
        .started req w.nextPid,
        [.depCheckPassed, .entryPointChecked true, .spawned req w.nextPid])
    else
      (s, .failed (.entryPointMissing s.options.serverPath),
        [.depCheckPassed, .entryPointChecked false,
         .errorLogged ("Error starting server: "
           ++ entryPointMissingMsg s.options.serverPath),
         .exitProcess 1])

/-- `stop()` from `src/index.js`:
`if (this.process) { kill('SIGTERM'); this.process = null; }` and then —
unconditionally, outside the `if` — `process.exit(0)`. -/
def stop (s : ServerState) : ServerState × List Effect :=
  match s.process with
  | some p =>
      ({ s with process := none },
        [.signalSent p.pid "SIGTERM", .exitProcess 0])
  | none => (s, [.exitProcess 0])

/-- The `close` observer `start()` registers on the child:
`if (code !== 0) { console.error(...); process.exit(code); }` —
and nothing at all when `code === 0`; `this.process` is never touched. -/
def onClose (code : Int) (s : ServerState) : ServerState × List Effect :=
  if code ≠ 0 then
    (s, [.errorLogged ("Python server exited with code " ++ toString code),
         .exitProcess code])
  else
    (s, [])

/-- The `error` observer `start()` registers on the child:
log and `process.exit(1)`. -/
def onSpawnError (msg : String) (s : ServerState) : ServerState × List Effect :=
  (s, [.errorLogged ("Failed to start Python server: " ++ msg), .exitProcess 1])

/-- The handler `start()` registers for both `SIGINT` and `SIGTERM`:
`() => this.stop()`. -/
def onSignal (s : ServerState) : ServerState × List Effect :=
  stop s

/-! ## StatusReporter: `getStatus` -/

/-- The `running`/`pid` projection of `getStatus()`'s return value. -/
structure Status where
  running : Bool
  pid : Option Nat
deriving DecidableEq, Repr

/-- `getStatus()` from `src/index.js`:
`running: this.process !== null && !this.process.killed`,
`pid: this.process ? this.process.pid : null`. -/
def getStatus (s : ServerState) : Status :=
  match s.process with
  | some p => { running := !p.killed, pid := some p.pid }
  | none => { running := false, pid := none }

/-! ## Concrete worlds for witnesses -/

/-- A world where the probe succeeds and the entry point exists. -/
def wOK : World :=
  { probeSpawnErr := none
    probeExit := 0
    probeOut := "DEPENDENCIES_OK\n"
    probeErr := ""
    fsExists := fun _ => true
    nextPid := 42 }

/-- A world where the probe reports a missing dependency. -/
def wMissing : World :=
  { probeSpawnErr := none
    probeExit := 1
    probeOut := "MISSING_DEPENDENCY: No module named mcp\n"
    probeErr := ""
    fsExists := fun _ => true
    nextPid := 42 }

/-- A world where the probe succeeds but the entry point is absent. -/
def wNoEntry : World :=
  { probeSpawnErr := none
    probeExit := 0
    probeOut := "DEPENDENCIES_OK\n"
    probeErr := ""
    fsExists := fun _ => false
    nextPid := 42 }

/-- Recognizer for termination-signal effects. -/
def isSignal : Effect → Bool
  | .signalSent _ _ => true
  | _ => false

/-! ## Theorems -/

/-- Helper: whatever run of `start` emits a spawn effect must have gone
through the success path, and the spawn's request and pid are exactly
the ones `start` builds there. -/
lemma spawn_trace (w : World) (s : ServerState)
    (req : SpawnRequest) (pid : Nat)
    (h : Effect.spawned req pid ∈ (start w s).2.2) :
    checkPythonDependencies w = .ok ∧
    w.fsExists s.options.serverPath = true ∧
    (start w s).2.2 =
      [.depCheckPassed, .entryPointChecked true, .spawned req pid] ∧
    req = { cmd := s.options.pythonExecutable
            args := ["-m", "nlsql_mcp_server.server"]
            cwd := s.options.cwd
            stdio := [.inherit, .inherit, .inherit]
            env := s.options.env } ∧
    pid = w.nextPid := by
  unfold start at h
  cases hc : checkPythonDependencies w with
  | failed msg => rw [hc] at h; simp at h
  | ok =>
    rw [hc] at h
    by_cases hf : w.fsExists s.options.serverPath
    · simp only [hf, if_true] at h
      simp only [List.mem_cons, List.not_mem_nil, or_false] at h
      rcases h with h | h | h
      · exact absurd h (by simp)
      · exact absurd h (by simp)
      · obtain ⟨hreq, hpid⟩ := Effect.spawned.inj h
        refine ⟨rfl, hf, ?_, hreq, hpid⟩
        unfold start
        rw [hc]
        simp only [hf, if_true]
        rw [hreq, hpid]
    · simp [hf] at h

/-- C1: whenever `start()` spawns the supervised child (dependency check
passed and the entry-point file exists), the spawn request wires the
child's stdin, stdout, and stderr as `inherit` — never piped. -/
theorem C1_child_stdio_inherited (w : World) (s : ServerState)
    (req : SpawnRequest) (pid : Nat)
    (h : Effect.spawned req pid ∈ (start w s).2.2) :
    req.stdio = [StdioMode.inherit, StdioMode.inherit, StdioMode.inherit] := by
  obtain ⟨-, -, -, hreq, -⟩ := spawn_trace w s req pid h
  rw [hreq]

/-- The concrete spawn request issued in the witness world `wOK` from
the default state `s0`. -/
def reqOK : SpawnRequest :=
  { cmd := "python3"
    args := ["-m", "nlsql_mcp_server.server"]
    cwd := getPackageRoot "/pkg"
    stdio := [.inherit, .inherit, .inherit]
    env := [] }

/-- Witness for C1: in the world `wOK` the child is spawned with
request `reqOK`, whose stdio is fully inherited. -/
theorem C1_child_stdio_inherited_witness :
    Effect.spawned reqOK 42 ∈ (start wOK s0).2.2 ∧
    reqOK.stdio = [StdioMode.inherit, StdioMode.inherit, StdioMode.inherit] :=
  ⟨by decide, C1_child_stdio_inherited wOK s0 reqOK 42 (by decide)⟩

/-- C2: whenever the dependency probe resolves (`Satisfied`) and the
entry-point path exists, `start()` reaches the running state: the call
reports success, and `getStatus()` afterwards reports `running = true`
with a non-null pid (the pid the OS assigned to the spawn). -/
theorem C2_start_reaches_running (w : World) (s : ServerState)
    (hdep : checkPythonDependencies w = .ok)
    (hfs : w.fsExists s.options.serverPath = true) :
    (∃ req, (start w s).2.1 = .started req w.nextPid) ∧
    (getStatus (start w s).1).running = true ∧
    (getStatus (start w s).1).pid = some w.nextPid ∧
    (getStatus (start w s).1).pid ≠ none := by
  unfold start
  rw [hdep]
  simp [hfs, getStatus]

/-- Witness for C2: the concrete world `wOK` satisfies both hypotheses,
and the started server reports `running = true` with pid 42. -/
theorem C2_start_reaches_running_witness :
    checkPythonDependencies wOK = .ok ∧
    wOK.fsExists s0.options.serverPath = true ∧
    ((∃ req, (start wOK s0).2.1 = .started req wOK.nextPid) ∧
      (getStatus (start wOK s0).1).running = true ∧
      (getStatus (start wOK s0).1).pid = some wOK.nextPid ∧
      (getStatus (start wOK s0).1).pid ≠ none) :=
  ⟨by decide, by decide, C2_start_reaches_running wOK s0 (by decide) (by decide)⟩

/-- C3: whenever the dependency probe rejects (any result other than
`Satisfied`), `start()` ends in the dependency-check-failed error
carrying the probe's message, the state is unchanged, no spawn ever
happens, and — starting from a state with no handle — no pid is
observable afterwards, even after a further `stop()`. -/
theorem C3_dep_failure_no_spawn (w : World) (s : ServerState) (msg : String)
    (hdep : checkPythonDependencies w = .failed msg) :
    (start w s).2.1 = .failed (.dependencyCheckFailed msg) ∧
    (start w s).1 = s ∧
    (∀ req pid, Effect.spawned req pid ∉ (start w s).2.2) ∧
    (s.process = none →
      (getStatus (start w s).1).pid = none ∧
      (stop (start w s).1).1.process = none) := by
  unfold start
  rw [hdep]
  refine ⟨rfl, rfl, by simp, fun hnone => ?_⟩
  constructor
  · simp [getStatus, hnone]
  · simp [stop, hnone]

/-- Witness for C3: in `wMissing` the probe exits 1 with a
missing-dependency line, and `start()` from `s0` fails without a spawn. -/
theorem C3_dep_failure_no_spawn_witness :
    checkPythonDependencies wMissing =
      .failed "Python dependencies check failed: MISSING_DEPENDENCY: No module named mcp\n" ∧
    ((start wMissing s0).2.1 =
      .failed (.dependencyCheckFailed
        "Python dependencies check failed: MISSING_DEPENDENCY: No module named mcp\n") ∧
      (start wMissing s0).1 = s0 ∧
      (∀ req pid, Effect.spawned req pid ∉ (start wMissing s0).2.2) ∧
      (s0.process = none →
        (getStatus (start wMissing s0).1).pid = none ∧
        (stop (start wMissing s0).1).1.process = none)) :=
  ⟨by decide, C3_dep_failure_no_spawn wMissing s0 _ (by decide)⟩

/-- C4: the entry-point check runs strictly after a successful
dependency check and strictly before the spawn: when the probe resolves
but the entry point is missing, the error is `entryPointMissing` (never
`dependencyCheckFailed`), no spawn occurs, and the effect trace shows
the dependency check passing before the entry-point check; moreover in
every run that does spawn, the trace is exactly dependency-check, then
entry-point check, then spawn. -/
theorem C4_entry_check_after_dep_check (w : World) (s : ServerState)
    (hdep : checkPythonDependencies w = .ok)
    (hfs : w.fsExists s.options.serverPath = false) :
    (start w s).2.1 = .failed (.entryPointMissing s.options.serverPath) ∧
    (∀ m, (start w s).2.1 ≠ .failed (.dependencyCheckFailed m)) ∧
    (∀ req pid, Effect.spawned req pid ∉ (start w s).2.2) ∧
    (start w s).2.2 =
      [.depCheckPassed, .entryPointChecked false,
       .errorLogged ("Error starting server: "
         ++ entryPointMissingMsg s.options.serverPath),
       .exitProcess 1] ∧
    (∀ (w' : World) (s' : ServerState) (req : SpawnRequest) (pid : Nat),
      Effect.spawned req pid ∈ (start w' s').2.2 →
      (start w' s').2.2 =
        [.depCheckPassed, .entryPointChecked true, .spawned req pid]) := by
  refine ⟨?_, ?_, ?_, ?_, ?_⟩
  · unfold start; rw [hdep]; simp [hfs]
  · unfold start; rw [hdep]; simp [hfs]
  · unfold start; rw [hdep]; simp [hfs]
  · unfold start; rw [hdep]; simp [hfs]
  · intro w' s' req pid h
    exact (spawn_trace w' s' req pid h).2.2.1

/-- Witness for C4: in `wNoEntry` the probe resolves but the entry
point is absent, and `start()` from `s0` reports the missing entry
point. -/
theorem C4_entry_check_after_dep_check_witness :
    checkPythonDependencies wNoEntry = .ok ∧
    wNoEntry.fsExists s0.options.serverPath = false ∧
    (start wNoEntry s0).2.1 = .failed (.entryPointMissing s0.options.serverPath) :=
  ⟨by decide, by decide,
    (C4_entry_check_after_dep_check wNoEntry s0 (by decide) (by decide)).1⟩

/-- C5: with no spawn-level probe failure, the dependency check
resolves (`Satisfied`) exactly when the probe exits 0 and its captured
stdout contains the sentinel `DEPENDENCIES_OK`; a probe that exits 0
without the sentinel is classified as a failure carrying the captured
output, never as success. -/
theorem C5_probe_classification (w : World) (h : w.probeSpawnErr = none) :
    (checkPythonDependencies w = .ok ↔
      (w.probeExit = 0 ∧ strIncludes w.probeOut sentinel = true)) ∧
    (w.probeExit = 0 → strIncludes w.probeOut sentinel = false →
      checkPythonDependencies w =
        .failed ("Python dependencies check failed: "
          ++ (if w.probeErr = "" then w.probeOut else w.probeErr)) ∧
      checkPythonDependencies w ≠ .ok) := by
  unfold checkPythonDependencies
  rw [h]
  constructor
  · by_cases hc : w.probeExit = 0 ∧ strIncludes w.probeOut sentinel
    · simp [hc]
    · simp [hc]
  · intro h0 hsen
    have hc : ¬ (w.probeExit = 0 ∧ strIncludes w.probeOut sentinel) := by
      rintro ⟨-, hs⟩; rw [hsen] at hs; exact Bool.false_ne_true hs
    simp [hc]

/-- Witness for C5: `wOK` has no spawn error, exits 0 and prints the
sentinel, so the check resolves. -/
theorem C5_probe_classification_witness :
    wOK.probeSpawnErr = none ∧ checkPythonDependencies wOK = .ok :=
  ⟨by decide, (C5_probe_classification wOK (by decide)).1.mpr ⟨by decide, by decide⟩⟩

/-- C6 counterexample: `stop()` on the freshly constructed server (no
handle) leaves the handle untouched and sends no signal, but it is not
a no-op: the unconditional `process.exit(0)` at the end of `stop()`
fires, so the effect trace is not empty. -/
theorem C6_counterexample :
    (stop s0).1 = s0 ∧
    (stop s0).2 = [Effect.exitProcess 0] ∧
    ¬ ((stop s0).2 = []) := by decide

/-- C6 (amended): `stop()` called while no process handle exists does
not raise, sends no termination signal, and leaves the server state
unchanged — but it still calls `process.exit(0)`, terminating the
supervisor's own process, so it is not a complete no-op. -/
theorem C6_stop_without_handle (s : ServerState) (h : s.process = none) :
    (stop s).1 = s ∧
    (∀ pid sig, Effect.signalSent pid sig ∉ (stop s).2) ∧
    (stop s).2 = [Effect.exitProcess 0] := by
  unfold stop
  rw [h]
  exact ⟨rfl, by simp, rfl⟩

/-- Witness for the amended C6 at the initial state `s0`. -/
theorem C6_stop_without_handle_witness :
    s0.process = none ∧
    ((stop s0).1 = s0 ∧
      (∀ pid sig, Effect.signalSent pid sig ∉ (stop s0).2) ∧
      (stop s0).2 = [Effect.exitProcess 0]) :=
  ⟨by decide, C6_stop_without_handle s0 (by decide)⟩

/-- C7: after a successful `start()`, the first `stop()` sends exactly
one SIGTERM and clears the handle, and the second `stop()` — guarded by
the cleared handle — sends none, so over both calls at most one
termination signal is sent to the child. -/
theorem C7_double_stop_one_signal (w : World) (s : ServerState)
    (hdep : checkPythonDependencies w = .ok)
    (hfs : w.fsExists s.options.serverPath = true) :
    (stop (start w s).1).2 =
      [Effect.signalSent w.nextPid "SIGTERM", Effect.exitProcess 0] ∧
    (stop (start w s).1).1.process = none ∧
    (stop (stop (start w s).1).1).2 = [Effect.exitProcess 0] ∧
    ((stop (start w s).1).2 ++ (stop (stop (start w s).1).1).2).countP
        isSignal ≤ 1 := by
  unfold start
  rw [hdep]
  simp only [hfs, if_true]
  refine ⟨rfl, rfl, rfl, ?_⟩
  simp [stop, isSignal, List.countP_cons]

/-- Witness for C7 in the concrete world `wOK` from `s0`. -/
theorem C7_double_stop_one_signal_witness :
    checkPythonDependencies wOK = .ok ∧
    wOK.fsExists s0.options.serverPath = true ∧
    ((stop (start wOK s0).1).2 =
        [Effect.signalSent 42 "SIGTERM", Effect.exitProcess 0] ∧
      (stop (start wOK s0).1).1.process = none ∧
      (stop (stop (start wOK s0).1).1).2 = [Effect.exitProcess 0] ∧
      ((stop (start wOK s0).1).2 ++ (stop (stop (start wOK s0).1).1).2).countP
          isSignal ≤ 1) :=
  ⟨by decide, by decide, C7_double_stop_one_signal wOK s0 (by decide) (by decide)⟩

/-- C8: the SIGINT/SIGTERM handler is exactly `() => this.stop()`; on a
running server the first delivery sends SIGTERM to the child and calls
`process.exit(0)` (a success status), and a second delivery finds the
handle already cleared: it sends no signal, changes no state, and again
exits 0 rather than throwing or tearing down twice. -/
theorem C8_signal_graceful_shutdown (w : World) (s : ServerState)
    (hdep : checkPythonDependencies w = .ok)
    (hfs : w.fsExists s.options.serverPath = true) :
    (∀ t : ServerState, onSignal t = stop t) ∧
    (onSignal (start w s).1).2 =
      [Effect.signalSent w.nextPid "SIGTERM", Effect.exitProcess 0] ∧
    Effect.exitProcess 0 ∈ (onSignal (start w s).1).2 ∧
    (onSignal (onSignal (start w s).1).1).1 = (onSignal (start w s).1).1 ∧
    (∀ pid sig,
      Effect.signalSent pid sig ∉ (onSignal (onSignal (start w s).1).1).2) ∧
    (onSignal (onSignal (start w s).1).1).2 = [Effect.exitProcess 0] := by
  unfold start
  rw [hdep]
  simp only [hfs, if_true]
  exact ⟨fun _ => rfl, rfl, by simp [onSignal, stop], rfl,
    by simp [onSignal, stop], rfl⟩

/-- Witness for C8 in the concrete world `wOK` from `s0`. -/
theorem C8_signal_graceful_shutdown_witness :
    checkPythonDependencies wOK = .ok ∧
    wOK.fsExists s0.options.serverPath = true ∧
    ((∀ t : ServerState, onSignal t = stop t) ∧
      (onSignal (start wOK s0).1).2 =
        [Effect.signalSent 42 "SIGTERM", Effect.exitProcess 0] ∧
      Effect.exitProcess 0 ∈ (onSignal (start wOK s0).1).2 ∧
      (onSignal (onSignal (start wOK s0).1).1).1 = (onSignal (start wOK s0).1).1 ∧
      (∀ pid sig,
        Effect.signalSent pid sig ∉ (onSignal (onSignal (start wOK s0).1).1).2) ∧
      (onSignal (onSignal (start wOK s0).1).1).2 = [Effect.exitProcess 0]) :=
  ⟨by decide, by decide,
    C8_signal_graceful_shutdown wOK s0 (by decide) (by decide)⟩

/-- C9 counterexample: child spawned in `wOK` from `s0`, then the close
event fires with code 3.  The supervisor does exit with code 3, but the
close handler never clears `this.process` and the `killed` flag is
unset, so `getStatus` immediately prior to the exit reports
`running = true` — not `running = false` as claimed. -/
theorem C9_counterexample :
    Effect.exitProcess 3 ∈ (onClose 3 (start wOK s0).1).2 ∧
    getStatus ((onClose 3 (start wOK s0).1).1) =
      { running := true, pid := some 42 } ∧
    ¬ ((getStatus ((onClose 3 (start wOK s0).1).1)).running = false) := by
  decide

/-- C9 (amended): when the child exits with a non-zero code after a
successful `start()`, the close handler logs the failure and calls
`process.exit` with that same code, so the supervisor's exit status
mirrors the child's — but `getStatus` queried immediately prior to that
exit reports `running = true`, because the close handler neither clears
the stored handle nor marks it killed. -/
theorem C9_exit_code_mirrored (w : World) (s : ServerState) (code : Int)
    (hdep : checkPythonDependencies w = .ok)
    (hfs : w.fsExists s.options.serverPath = true)
    (hc : code ≠ 0) :
    (onClose code (start w s).1).2 =
      [Effect.errorLogged ("Python server exited with code " ++ toString code),
       Effect.exitProcess code] ∧
    Effect.exitProcess code ∈ (onClose code (start w s).1).2 ∧
    (getStatus ((onClose code (start w s).1).1)).running = true ∧
    (onClose code (start w s).1).1 = (start w s).1 := by
  unfold start
  rw [hdep]
  simp only [hfs, if_true]
  refine ⟨?_, ?_, ?_, ?_⟩
  · simp [onClose, hc]
  · simp [onClose, hc]
  · simp [onClose, hc, getStatus]
  · simp [onClose, hc]

/-- Witness for the amended C9 with child exit code 3. -/
theorem C9_exit_code_mirrored_witness :
    checkPythonDependencies wOK = .ok ∧
    wOK.fsExists s0.options.serverPath = true ∧
    (3 : Int) ≠ 0 ∧
    ((onClose 3 (start wOK s0).1).2 =
        [Effect.errorLogged ("Python server exited with code " ++ toString (3 : Int)),
         Effect.exitProcess 3] ∧
      Effect.exitProcess 3 ∈ (onClose 3 (start wOK s0).1).2 ∧
      (getStatus ((onClose 3 (start wOK s0).1).1)).running = true ∧
      (onClose 3 (start wOK s0).1).1 = (start wOK s0).1) :=
  ⟨by decide, by decide, by decide,
    C9_exit_code_mirrored wOK s0 3 (by decide) (by decide) (by decide)⟩

/-- C10: a close event with code exactly 0 makes the handler do nothing
at all — no `process.exit`, no error log, no change to any state (in
particular the handle is kept), so `getStatus` after the event still
reports the child as running. -/
theorem C10_clean_close_no_action (w : World) (s : ServerState)
    (hdep : checkPythonDependencies w = .ok)
    (hfs : w.fsExists s.options.serverPath = true) :
    (∀ t : ServerState, onClose 0 t = (t, [])) ∧
    (onClose 0 (start w s).1).1.process = (start w s).1.process ∧
    (∀ c, Effect.exitProcess c ∉ (onClose 0 (start w s).1).2) ∧
    (∀ m, Effect.errorLogged m ∉ (onClose 0 (start w s).1).2) ∧
    (getStatus ((onClose 0 (start w s).1).1)).running = true ∧
    (getStatus ((onClose 0 (start w s).1).1)).pid = some w.nextPid := by
  have hz : ∀ t : ServerState, onClose 0 t = (t, []) := by
    intro t; simp [onClose]
  refine ⟨hz, ?_, ?_, ?_, ?_, ?_⟩
  · rw [hz]
  · rw [hz]; simp
  · rw [hz]; simp
  · rw [hz]
    unfold start
    rw [hdep]
    simp [hfs, getStatus]
  · rw [hz]
    unfold start
    rw [hdep]
    simp [hfs, getStatus]

/-- Witness for C10 in the concrete world `wOK` from `s0`. -/
theorem C10_clean_close_no_action_witness :
    checkPythonDependencies wOK = .ok ∧
    wOK.fsExists s0.options.serverPath = true ∧
    ((∀ t : ServerState, onClose 0 t = (t, [])) ∧
      (onClose 0 (start wOK s0).1).1.process = (start wOK s0).1.process ∧
      (∀ c, Effect.exitProcess c ∉ (onClose 0 (start wOK s0).1).2) ∧
      (∀ m, Effect.errorLogged m ∉ (onClose 0 (start wOK s0).1).2) ∧
      (getStatus ((onClose 0 (start wOK s0).1).1)).running = true ∧
      (getStatus ((onClose 0 (start wOK s0).1).1)).pid = some 42) :=
  ⟨by decide, by decide,
    C10_clean_close_no_action wOK s0 (by decide) (by decide)⟩

end NLSQL
